import Mathlib

/-!
Verification model of the react-side-effect library.

The repository ships its test suite and build configuration; the library
implementation itself (src/index.js) is not present, so the core is modelled
from the specification, with the test suite used as the authority on observable
behavior wherever the two disagree.

The model: one wrapper type produced by the factory carries a module-scoped
registry of mounted instances (mount order preserved), a flag recording whether
an aggregate has been recorded since the last rewind, and the mutable canUseDOM
flag. Lifecycle hooks (Created / Updated / Destroyed) return the successor
state together with the list of aggregates handed to the client-side handler,
so handler invocations are observable as data.
-/

namespace ReactSideEffect

/-- Concrete props objects for examples: an attribute-name/value mapping,
written as an association list (the object with key foo and value bar is
[(foo, bar)]). -/
abbrev PropsObj := List (String × String)

/-- Modelled from the spec: the two error kinds of the library
(ConfigurationError from argument validation, UsageError from rewind in a
client context), each carrying its message. src/index.js is absent. -/
inductive SideEffectError where
  | configurationError (msg : String)
  | usageError (msg : String)
deriving DecidableEq, Repr

/-- Modelled from the spec: the process-wide mutable state owned by one
wrapper type produced by the factory (src/index.js is absent):
the ordered collection of live instance handles (a handle is an instance
identifier paired with the props currently passed to that occurrence, in
registration order), the last-emitted-snapshot memo (here: whether an
aggregate has been recorded since the last rewind, as the test suite shows
rewind returns undefined when nothing was recorded), and the canUseDOM flag
(defaults to true). -/
structure SideEffectState (Props : Type) where
  mountedInstances : List (Nat × Props)
  hasRecordedState : Bool
  canUseDOM : Bool
deriving DecidableEq, Repr

/-- Modelled from the spec: the state a freshly produced wrapper type starts
in — empty registry, nothing recorded, canUseDOM defaulting to true. -/
def SideEffectState.fresh (Props : Type) : SideEffectState Props :=
  { mountedInstances := [], hasRecordedState := false, canUseDOM := true }

variable {Props State Mapped : Type}

/-- Modelled from the spec: Registry.collect — fold the reducer over the
ordered sequence of each live handle's current props. -/
def collect (reduce : List Props → State) (s : SideEffectState Props) : State :=
  reduce (s.mountedInstances.map Prod.snd)

/-- Modelled from the spec: the Created lifecycle hook — register the handle
(appending preserves mount order), then always take the client path
regardless of canUseDOM: recompute the aggregate and invoke
handleStateChangeOnClient with it unconditionally. The returned list is the
sequence of aggregates handed to the handler by this hook. -/
def created (reduce : List Props → State) (s : SideEffectState Props)
    (id : Nat) (props : Props) : SideEffectState Props × List State :=
  let s2 : SideEffectState Props :=
    { s with mountedInstances := s.mountedInstances ++ [(id, props)],
             hasRecordedState := true }
  (s2, [collect reduce s2])

/-- Modelled from the spec: the Updated lifecycle hook — the host rebinds the
occurrence's props (the handle carries them by reference); if canUseDOM is
true and this instance's own props changed since its previous Created/Updated
call, recompute the aggregate and invoke the handler once; otherwise no
notification (and when canUseDOM is false, no side effect at all). -/
def updated [DecidableEq Props] (reduce : List Props → State)
    (s : SideEffectState Props) (id : Nat) (newProps : Props) :
    SideEffectState Props × List State :=
  let newInstances := s.mountedInstances.map
    (fun q => if q.1 = id then (id, newProps) else q)
  if s.canUseDOM ∧ s.mountedInstances.lookup id ≠ some newProps then
    ({ s with mountedInstances := newInstances, hasRecordedState := true },
      [reduce (newInstances.map Prod.snd)])
  else
    ({ s with mountedInstances := newInstances }, [])

/-- Modelled from the spec: the Destroyed lifecycle hook — remove the first
matching handle by identity, then recompute the aggregate and invoke the
handler unconditionally (removal always counts as a change). -/
def destroyed (reduce : List Props → State) (s : SideEffectState Props)
    (id : Nat) : SideEffectState Props × List State :=
  let s2 : SideEffectState Props :=
    { s with mountedInstances := s.mountedInstances.eraseP (fun q => q.1 == id),
             hasRecordedState := true }
  (s2, [collect reduce s2])

/-- Modelled from the spec: the static peek capability — return
Registry.collect() directly; a non-destructive read, so the state component
is returned unchanged. -/
def peek (reduce : List Props → State) (s : SideEffectState Props) :
    State × SideEffectState Props :=
  (collect reduce s, s)

/-- Modelled from the spec and the test suite: the static rewind capability.
With canUseDOM true it fails with the UsageError and leaves the state
untouched. Otherwise it returns the collected aggregate — passed through
mapStateOnServer when one was supplied (Sum.inr marks a mapped result,
Sum.inl a raw one) — provided an aggregate has been recorded since the last
rewind, and returns none (undefined) otherwise, as the test suite requires
for a second immediate rewind; it then clears the registry and the recorded
flag. -/
def rewind (reduce : List Props → State) (mapper : Option (State → Mapped))
    (s : SideEffectState Props) :
    Except SideEffectError (Option (State ⊕ Mapped)) × SideEffectState Props :=
  if s.canUseDOM then
    (Except.error (SideEffectError.usageError
      "You may only call rewind() on the server. Call peek() to read the current state."),
      s)
  else
    let result : Option (State ⊕ Mapped) :=
      if s.hasRecordedState then
        some (match mapper with
          | some f => Sum.inr (f (collect reduce s))
          | none => Sum.inl (collect reduce s))
      else none
    (Except.ok result,
      { s with mountedInstances := [], hasRecordedState := false })

/-- Modelled from the spec: the operations a host environment and its callers
can perform against one wrapper type between reads — mounting an occurrence,
re-rendering it with new props, unmounting it, and setting the canUseDOM
flag externally. -/
inductive SideEffectOp (Props : Type) where
  | mount (id : Nat) (props : Props)
  | update (id : Nat) (props : Props)
  | unmount (id : Nat)
  | setCanUseDOM (b : Bool)

/-- Dispatch one operation to the lifecycle hook it triggers, returning the
successor state and the aggregates handed to the client handler. -/
def applyOp [DecidableEq Props] (reduce : List Props → State)
    (s : SideEffectState Props) : SideEffectOp Props → SideEffectState Props × List State
  | SideEffectOp.mount id props => created reduce s id props
  | SideEffectOp.update id props => updated reduce s id props
  | SideEffectOp.unmount id => destroyed reduce s id
  | SideEffectOp.setCanUseDOM b => ({ s with canUseDOM := b }, [])

/-- Run a sequence of operations, accumulating every aggregate handed to the
client handler along the way. -/
def runOps [DecidableEq Props] (reduce : List Props → State)
    (s : SideEffectState Props) :
    List (SideEffectOp Props) → SideEffectState Props × List State
  | [] => (s, [])
  | op :: rest =>
    ((runOps reduce (applyOp reduce s op).1 rest).1,
      (applyOp reduce s op).2 ++ (runOps reduce (applyOp reduce s op).1 rest).2)

/-- The registry contents an operation leaves behind, stated directly on the
ordered handle list: mount appends, update rebinds that identifier's props in
place, unmount removes the first matching handle, the flag leaves the
registry alone. -/
def registryStep [DecidableEq Props] (acc : List (Nat × Props)) :
    SideEffectOp Props → List (Nat × Props)
  | SideEffectOp.mount id props => acc ++ [(id, props)]
  | SideEffectOp.update id props =>
      acc.map (fun q => if q.1 = id then (id, props) else q)
  | SideEffectOp.unmount id => acc.eraseP (fun q => q.1 == id)
  | SideEffectOp.setCanUseDOM _ => acc

/-- The currently-live instances and their latest props determined directly
from an operation sequence, in mount order. -/
def specLiveFrom [DecidableEq Props] (init : List (Nat × Props))
    (ops : List (SideEffectOp Props)) : List (Nat × Props) :=
  ops.foldl registryStep init

/-- Live instances after an operation sequence starting from nothing. -/
def specLive [DecidableEq Props] (ops : List (SideEffectOp Props)) :
    List (Nat × Props) :=
  specLiveFrom [] ops

theorem applyOp_mountedInstances [DecidableEq Props] (reduce : List Props → State)
    (s : SideEffectState Props) (op : SideEffectOp Props) :
    (applyOp reduce s op).1.mountedInstances = registryStep s.mountedInstances op := by
  cases op with
  | mount id props => rfl
  | update id props =>
      simp only [applyOp, updated, registryStep]
      split <;> rfl
  | unmount id => rfl
  | setCanUseDOM b => rfl

theorem runOps_mountedInstances [DecidableEq Props] (reduce : List Props → State)
    (s : SideEffectState Props) (ops : List (SideEffectOp Props)) :
    (runOps reduce s ops).1.mountedInstances = specLiveFrom s.mountedInstances ops := by
  induction ops generalizing s with
  | nil => rfl
  | cons op rest ih =>
      show (runOps reduce (applyOp reduce s op).1 rest).1.mountedInstances = _
      rw [ih, applyOp_mountedInstances]
      rfl

/-- Modelled from the spec: the shape of the factory's three behavior
arguments as seen by its dynamic validation — whether the first two are
invocable, and for the optional third whether it was provided at all and, if
so, whether it is invocable (none means it was left undefined). -/
structure FactoryArgs where
  reduceIsFunction : Bool
  handleIsFunction : Bool
  mapStateOnServerArg : Option Bool
deriving DecidableEq, Repr

/-- Modelled from the spec: the wrapped-component descriptor as seen by
validation and display-name derivation — whether the host recognizes it as a
valid component, its declared display name when it has one, and its
constructor/function name when it has one. -/
structure ComponentDescriptor where
  isValidComponent : Bool
  declaredDisplayName : Option String
  functionName : Option String
deriving DecidableEq, Repr

/-- Modelled from the spec: fail-fast validation of the factory's arguments,
checked in order with the exact messages, before any component is wrapped. -/
def checkFactoryArgs (a : FactoryArgs) : Except SideEffectError Unit :=
  if a.reduceIsFunction = false then
    Except.error (SideEffectError.configurationError
      "Expected reducePropsToState to be a function.")
  else if a.handleIsFunction = false then
    Except.error (SideEffectError.configurationError
      "Expected handleStateChangeOnClient to be a function.")
  else if a.mapStateOnServerArg = some false then
    Except.error (SideEffectError.configurationError
      "Expected mapStateOnServer to either be undefined or a function.")
  else
    Except.ok ()

/-- Modelled from the spec: three-tier display-name resolution for the
wrapped component — its declared display name, else its constructor/function
name, else the literal fallback Component. -/
def getDisplayName (c : ComponentDescriptor) : String :=
  c.declaredDisplayName.getD (c.functionName.getD "Component")

/-- Modelled from the spec: the second stage of the factory — validate the
wrapped component, then produce the wrapper type: its derived display name
together with its own fresh module-scoped state. -/
def wrapComponent (Props : Type) (c : ComponentDescriptor) :
    Except SideEffectError (String × SideEffectState Props) :=
  if c.isValidComponent = false then
    Except.error (SideEffectError.configurationError
      "Expected WrappedComponent to be a React component")
  else
    Except.ok ("SideEffect(" ++ getDisplayName c ++ ")", SideEffectState.fresh Props)

/-- Modelled from the spec: the full factory chain — argument validation
fails fast, before any component type is produced; only then is the wrapped
component validated and the wrapper type built. -/
def createWrapper (Props : Type) (a : FactoryArgs) (c : ComponentDescriptor) :
    Except SideEffectError (String × SideEffectState Props) :=
  match checkFactoryArgs a with
  | Except.error e => Except.error e
  | Except.ok _ => wrapComponent Props c

/-- Modelled from the spec: everything external code can do to one wrapper
type — drive a lifecycle operation, or call the static rewind (which mutates
state on the server path) or peek (which never does). -/
inductive WorldOp (Props : Type) where
  | basic (op : SideEffectOp Props)
  | rewindCall
  | peekCall

/-- The state left behind by one call against a single wrapper type. -/
def applyWorldOp [DecidableEq Props] (reduce : List Props → State)
    (mapper : Option (State → Mapped)) (s : SideEffectState Props) :
    WorldOp Props → SideEffectState Props
  | WorldOp.basic op => (applyOp reduce s op).1
  | WorldOp.rewindCall => (rewind reduce mapper s).2
  | WorldOp.peekCall => (peek reduce s).2

/-- A world holding two wrapper types produced by two factory applications;
each tagged call goes to the wrapper named by its tag (false for the first,
true for the second) and can only touch that wrapper's own state. -/
def runWorld [DecidableEq Props] (reduce : List Props → State)
    (mapper : Option (State → Mapped))
    (w : SideEffectState Props × SideEffectState Props) :
    List (Bool × WorldOp Props) → SideEffectState Props × SideEffectState Props
  | [] => w
  | (tag, op) :: rest =>
    runWorld reduce mapper
      (if tag then (w.1, applyWorldOp reduce mapper w.2 op)
        else (applyWorldOp reduce mapper w.1 op, w.2)) rest

theorem runWorld_first_only [DecidableEq Props] (reduce : List Props → State)
    (mapper : Option (State → Mapped))
    (w : SideEffectState Props × SideEffectState Props)
    (ops : List (WorldOp Props)) :
    (runWorld reduce mapper w (ops.map (fun op => (false, op)))).2 = w.2 := by
  induction ops generalizing w with
  | nil => rfl
  | cons op rest ih => exact ih _

theorem runWorld_second_only [DecidableEq Props] (reduce : List Props → State)
    (mapper : Option (State → Mapped))
    (w : SideEffectState Props × SideEffectState Props)
    (ops : List (WorldOp Props)) :
    (runWorld reduce mapper w (ops.map (fun op => (true, op)))).1 = w.1 := by
  induction ops generalizing w with
  | nil => rfl
  | cons op rest ih => exact ih _

/-- The state left after the rewind test scenario's setup: canUseDOM set to
false, then one instance mounted with props (foo, bar). -/
def c3afterMount : SideEffectState PropsObj :=
  (runOps (fun l => l) (SideEffectState.fresh PropsObj)
    [SideEffectOp.setCanUseDOM false,
      SideEffectOp.mount 1 [("foo", "bar")]]).1

/-- The first rewind call of the rewind test scenario (identity reducer, no
server-state mapper). -/
def c3firstRewind :
    Except SideEffectError (Option (List PropsObj ⊕ PropsObj)) × SideEffectState PropsObj :=
  rewind (fun l => l) (none : Option (List PropsObj → PropsObj)) c3afterMount

/-- The second rewind call, made immediately after the first with no new
mounts. -/
def c3secondRewind :
    Except SideEffectError (Option (List PropsObj ⊕ PropsObj)) × SideEffectState PropsObj :=
  rewind (fun l => l) (none : Option (List PropsObj → PropsObj)) c3firstRewind.2

/-- The number of client-handler invocations accumulated after the first k
operations of the with-DOM scenario: render with text=bar, rerender with
text=bar, rerender with text=baz, rerender with text=baz. -/
def clientCallCount (k : Nat) : Nat :=
  ((runOps (fun l => l) (SideEffectState.fresh PropsObj)
    ([SideEffectOp.mount 1 [("text", "bar")],
      SideEffectOp.update 1 [("text", "bar")],
      SideEffectOp.update 1 [("text", "baz")],
      SideEffectOp.update 1 [("text", "baz")]].take k)).2).length

/-- C1: for every reducer and every finite sequence of mount, update, and
unmount operations (external canUseDOM changes allowed, as they never touch
the registry), peek() after the sequence returns the reducer applied to the
ordered sequence of the currently-live instances' latest props, in mount
order; in particular, mounting two instances with props (foo, bar) and
(something, different) makes peek() return those two props objects in mount
order. -/
theorem C1_peek_collects_live_props [DecidableEq Props]
    (reduce : List Props → State) (ops : List (SideEffectOp Props)) :
    (peek reduce (runOps reduce (SideEffectState.fresh Props) ops).1).1
      = reduce ((specLive ops).map Prod.snd)
    ∧ (peek (fun l => l)
        (runOps (fun l => l) (SideEffectState.fresh PropsObj)
          [SideEffectOp.mount 1 [("foo", "bar")],
            SideEffectOp.mount 2 [("something", "different")]]).1).1
      = [[("foo", "bar")], [("something", "different")]] := by
  constructor
  · show collect reduce _ = _
    rw [collect, runOps_mountedInstances]
    rfl
  · rfl

/-- C2: with canUseDOM true, an Updated call whose props are unchanged for
that instance does not invoke the client handler, while an Updated call whose
props did change invokes the handler exactly once more; the cumulative
call-count sequence over render(text=bar), rerender(text=bar),
rerender(text=baz), rerender(text=baz) is 1, 1, 2, 2. -/
theorem C2_updated_dedups_handler_calls [DecidableEq Props]
    (reduce : List Props → State) (s : SideEffectState Props)
    (id : Nat) (p : Props) (hdom : s.canUseDOM = true) :
    (s.mountedInstances.lookup id = some p → (updated reduce s id p).2 = [])
    ∧ (s.mountedInstances.lookup id ≠ some p →
        (updated reduce s id p).2.length = 1)
    ∧ clientCallCount 1 = 1 ∧ clientCallCount 2 = 1
    ∧ clientCallCount 3 = 2 ∧ clientCallCount 4 = 2 := by
  refine ⟨?_, ?_, rfl, rfl, rfl, rfl⟩
  · intro h
    simp [updated, h]
  · intro h
    simp [updated, hdom, h]

theorem C2_updated_dedups_handler_calls_witness :
    (SideEffectState.fresh PropsObj).canUseDOM = true
    ∧ (updated (fun l => l) (SideEffectState.fresh PropsObj) 1
        [("text", "bar")]).2.length = 1 :=
  ⟨rfl, (C2_updated_dedups_handler_calls (fun l => l)
      (SideEffectState.fresh PropsObj) 1 [("text", "bar")] rfl).2.1 (by decide)⟩

/-- C3 counterexample: in the rewind test scenario (identity reducer, no
mapper, canUseDOM false, one instance mounted with props (foo, bar)), the
first rewind returns the raw collected aggregate, but the second immediate
rewind returns none (undefined) — not the reducer's empty-input result,
which for the identity reducer is the empty list. The test suite requires
the undefined result, refuting the claim as stated. -/
theorem C3_second_rewind_counterexample :
    c3firstRewind.1 = Except.ok (some (Sum.inl [[("foo", "bar")]]))
    ∧ c3secondRewind.1 = Except.ok none
    ∧ c3secondRewind.1
        ≠ Except.ok (some (Sum.inl ((fun (l : List PropsObj) => l) []))) := by
  have e : c3secondRewind.1
      = Except.ok (none : Option (List PropsObj ⊕ PropsObj)) := rfl
  refine ⟨rfl, e, ?_⟩
  rw [e]
  simp

/-- C3 (amended): when canUseDOM is false and an aggregate has been recorded
since the last rewind, rewind() returns mapStateOnServer applied to the
collected aggregate if a mapper was supplied (otherwise the raw collected
aggregate) and resets the registry to empty; a second rewind() immediately
afterward (with no new mounts) returns undefined, not the reducer's
empty-input result. -/
theorem C3_rewind_drains_then_returns_undefined (reduce : List Props → State)
    (mapper : Option (State → Mapped)) (s : SideEffectState Props)
    (hdom : s.canUseDOM = false) (hrec : s.hasRecordedState = true) :
    (rewind reduce mapper s).1 = Except.ok (some (match mapper with
        | some f => Sum.inr (f (collect reduce s))
        | none => Sum.inl (collect reduce s)))
    ∧ (rewind reduce mapper s).2.mountedInstances = []
    ∧ (rewind reduce mapper (rewind reduce mapper s).2).1 = Except.ok none := by
  simp [rewind, hdom, hrec]

theorem C3_rewind_drains_then_returns_undefined_witness :
    c3afterMount.canUseDOM = false
    ∧ c3afterMount.hasRecordedState = true
    ∧ (rewind (fun l => l) (none : Option (List PropsObj → PropsObj))
        c3afterMount).1 = Except.ok (some (Sum.inl [[("foo", "bar")]]))
    ∧ (rewind (fun l => l) (none : Option (List PropsObj → PropsObj))
        (rewind (fun l => l) (none : Option (List PropsObj → PropsObj))
          c3afterMount).2).1 = Except.ok none := by
  have h := C3_rewind_drains_then_returns_undefined (fun l => l)
    (none : Option (List PropsObj → PropsObj)) c3afterMount rfl rfl
  exact ⟨rfl, rfl, h.1, h.2.2⟩

/-- C4: whenever canUseDOM is true, every rewind() call raises UsageError
with the exact browser-misuse message and leaves the wrapper state —
registry contents included — completely unchanged. -/
theorem C4_rewind_browser_usage_error (reduce : List Props → State)
    (mapper : Option (State → Mapped)) (s : SideEffectState Props)
    (hdom : s.canUseDOM = true) :
    (rewind reduce mapper s).1 = Except.error (SideEffectError.usageError
      "You may only call rewind() on the server. Call peek() to read the current state.")
    ∧ (rewind reduce mapper s).2 = s := by
  simp [rewind, hdom]

theorem C4_rewind_browser_usage_error_witness :
    (SideEffectState.fresh PropsObj).canUseDOM = true
    ∧ (rewind (fun l => l) (none : Option (List PropsObj → PropsObj))
        (SideEffectState.fresh PropsObj)).1
      = Except.error (SideEffectError.usageError
        "You may only call rewind() on the server. Call peek() to read the current state.")
    ∧ (rewind (fun l => l) (none : Option (List PropsObj → PropsObj))
        (SideEffectState.fresh PropsObj)).2 = SideEffectState.fresh PropsObj := by
  have h := C4_rewind_browser_usage_error (fun l => l)
    (none : Option (List PropsObj → PropsObj)) (SideEffectState.fresh PropsObj) rfl
  exact ⟨rfl, h.1, h.2⟩

/-- C5: the server-state mapper is applied only to rewind()'s return value:
with a mapper supplied and canUseDOM false, rewind returns the mapper applied
to the reduced aggregate, while the lifecycle hooks always hand the client
handler the raw aggregate from the reducer (they never consult the mapper)
and peek() returns the raw (unmapped) aggregate. -/
theorem C5_mapper_applies_only_to_rewind (reduce : List Props → State)
    (f : State → Mapped) (s : SideEffectState Props) (id : Nat) (p : Props)
    (hdom : s.canUseDOM = false) (hrec : s.hasRecordedState = true) :
    (rewind reduce (some f) s).1
      = Except.ok (some (Sum.inr (f ((peek reduce s).1))))
    ∧ (peek reduce s).1 = reduce (s.mountedInstances.map Prod.snd)
    ∧ (created reduce s id p).2
      = [reduce ((s.mountedInstances ++ [(id, p)]).map Prod.snd)]
    ∧ (destroyed reduce s id).2
      = [reduce ((s.mountedInstances.eraseP (fun q => q.1 == id)).map Prod.snd)] := by
  refine ⟨?_, rfl, rfl, rfl⟩
  simp [rewind, hdom, hrec, peek, collect]

theorem C5_mapper_applies_only_to_rewind_witness :
    (rewind (fun (l : List PropsObj) => l) (some (fun l => l.headD []))
      { mountedInstances := [(1, [("foo", "bar")])], hasRecordedState := true,
        canUseDOM := false }).1
      = Except.ok (some (Sum.inr [("foo", "bar")]))
    ∧ (peek (fun (l : List PropsObj) => l)
        { mountedInstances := [(1, [("foo", "bar")])], hasRecordedState := true,
          canUseDOM := false }).1 = [[("foo", "bar")]] := by
  have h := C5_mapper_applies_only_to_rewind (fun (l : List PropsObj) => l)
    (fun l => l.headD [])
    { mountedInstances := [(1, [("foo", "bar")])], hasRecordedState := true,
      canUseDOM := false } 1 [("foo", "bar")] rfl rfl
  exact ⟨h.1, h.2.1⟩

/-- C6: the Created hook always takes the client path regardless of the
canUseDOM flag: on every mount it appends the handle to the registry,
recomputes the aggregate via collect, and hands it to the client handler
exactly once with no deduplication, leaving canUseDOM itself untouched. -/
theorem C6_created_always_client_path (reduce : List Props → State)
    (s : SideEffectState Props) (id : Nat) (p : Props) :
    (created reduce s id p).1.mountedInstances = s.mountedInstances ++ [(id, p)]
    ∧ (created reduce s id p).2
      = [reduce ((s.mountedInstances ++ [(id, p)]).map Prod.snd)]
    ∧ (created reduce s id p).2 = [collect reduce (created reduce s id p).1]
    ∧ (created reduce s id p).1.canUseDOM = s.canUseDOM :=
  ⟨rfl, rfl, rfl, rfl⟩

/-- C7: factory argument validation fails fast, before any component type is
produced, raising ConfigurationError with the exact message for a
non-invocable reducer, a non-invocable client handler, a provided but
non-invocable server-state mapper, and an invalid wrapped component. -/
theorem C7_factory_argument_validation (Props : Type) (a : FactoryArgs)
    (c : ComponentDescriptor) :
    (a.reduceIsFunction = false →
      createWrapper Props a c = Except.error (SideEffectError.configurationError
        "Expected reducePropsToState to be a function."))
    ∧ (a.reduceIsFunction = true → a.handleIsFunction = false →
      createWrapper Props a c = Except.error (SideEffectError.configurationError
        "Expected handleStateChangeOnClient to be a function."))
    ∧ (a.reduceIsFunction = true → a.handleIsFunction = true →
        a.mapStateOnServerArg = some false →
      createWrapper Props a c = Except.error (SideEffectError.configurationError
        "Expected mapStateOnServer to either be undefined or a function."))
    ∧ (checkFactoryArgs a = Except.ok () → c.isValidComponent = false →
      createWrapper Props a c = Except.error (SideEffectError.configurationError
        "Expected WrappedComponent to be a React component")) := by
  refine ⟨?_, ?_, ?_, ?_⟩
  · intro h
    simp [createWrapper, checkFactoryArgs, h]
  · intro h1 h2
    simp [createWrapper, checkFactoryArgs, h1, h2]
  · intro h1 h2 h3
    simp [createWrapper, checkFactoryArgs, h1, h2, h3]
  · intro h1 h2
    simp [createWrapper, h1, wrapComponent, h2]

theorem C7_factory_argument_validation_witness :
    createWrapper PropsObj ⟨false, false, none⟩ ⟨true, none, none⟩
      = Except.error (SideEffectError.configurationError
        "Expected reducePropsToState to be a function.")
    ∧ createWrapper PropsObj ⟨true, false, none⟩ ⟨true, none, none⟩
      = Except.error (SideEffectError.configurationError
        "Expected handleStateChangeOnClient to be a function.")
    ∧ createWrapper PropsObj ⟨true, true, some false⟩ ⟨true, none, none⟩
      = Except.error (SideEffectError.configurationError
        "Expected mapStateOnServer to either be undefined or a function.")
    ∧ createWrapper PropsObj ⟨true, true, none⟩ ⟨false, none, none⟩
      = Except.error (SideEffectError.configurationError
        "Expected WrappedComponent to be a React component") :=
  ⟨(C7_factory_argument_validation PropsObj ⟨false, false, none⟩
      ⟨true, none, none⟩).1 rfl,
    (C7_factory_argument_validation PropsObj ⟨true, false, none⟩
      ⟨true, none, none⟩).2.1 rfl rfl,
    (C7_factory_argument_validation PropsObj ⟨true, true, some false⟩
      ⟨true, none, none⟩).2.2.1 rfl rfl rfl,
    (C7_factory_argument_validation PropsObj ⟨true, true, none⟩
      ⟨false, none, none⟩).2.2.2 rfl rfl⟩

/-- C8: peek is non-destructive and idempotent with respect to the registry:
for any wrapper state — in particular any state reached by a sequence of
operations from a fresh wrapper — peek leaves the state unchanged and two
consecutive peek calls return the same value. -/
theorem C8_peek_nondestructive_idempotent [DecidableEq Props]
    (reduce : List Props → State) (s : SideEffectState Props)
    (ops : List (SideEffectOp Props)) :
    (peek reduce s).2 = s
    ∧ (peek reduce (peek reduce s).2).1 = (peek reduce s).1
    ∧ (peek reduce (runOps reduce (SideEffectState.fresh Props) ops).1).2
      = (runOps reduce (SideEffectState.fresh Props) ops).1 :=
  ⟨rfl, rfl, rfl⟩

/-- C9: the wrapper type's display name is SideEffect(name) where name is
resolved by the three-tier rule — declared display name, else
constructor/function name, else the literal fallback Component; wrapping a
type named Dummy yields SideEffect(Dummy) and wrapping an anonymous type
yields SideEffect(Component). -/
theorem C9_display_name_three_tier (Props : Type) (n m : String)
    (dn fn : Option String) :
    getDisplayName ⟨true, some n, fn⟩ = n
    ∧ getDisplayName ⟨true, none, some m⟩ = m
    ∧ getDisplayName ⟨true, none, none⟩ = "Component"
    ∧ (wrapComponent Props ⟨true, dn, fn⟩).map Prod.fst
      = Except.ok ("SideEffect(" ++ getDisplayName ⟨true, dn, fn⟩ ++ ")")
    ∧ (wrapComponent Props ⟨true, some "Dummy", none⟩).map Prod.fst
      = Except.ok "SideEffect(Dummy)"
    ∧ (wrapComponent Props ⟨true, none, none⟩).map Prod.fst
      = Except.ok "SideEffect(Component)" :=
  ⟨rfl, rfl, rfl, rfl, rfl, rfl⟩

/-- C10: each factory application yields a wrapper type with its own fresh,
empty registry, and mount/update/unmount, peek, and rewind calls performed
against one produced wrapper type never affect the state, the peek results,
or the rewind results of a wrapper type produced by a different application,
even when both use the same reducer and mapper. -/
theorem C10_wrapper_isolation [DecidableEq Props] (reduce : List Props → State)
    (mapper : Option (State → Mapped)) (dn fn : Option String)
    (ops : List (WorldOp Props)) :
    (wrapComponent Props ⟨true, dn, fn⟩).map Prod.snd
      = Except.ok (SideEffectState.fresh Props)
    ∧ (runWorld reduce mapper
        (SideEffectState.fresh Props, SideEffectState.fresh Props)
        (ops.map (fun op => (false, op)))).2 = SideEffectState.fresh Props
    ∧ (peek reduce (runWorld reduce mapper
        (SideEffectState.fresh Props, SideEffectState.fresh Props)
        (ops.map (fun op => (false, op)))).2).1 = reduce []
    ∧ rewind reduce mapper (runWorld reduce mapper
        (SideEffectState.fresh Props, SideEffectState.fresh Props)
        (ops.map (fun op => (false, op)))).2
      = rewind reduce mapper (SideEffectState.fresh Props)
    ∧ (runWorld reduce mapper
        (SideEffectState.fresh Props, SideEffectState.fresh Props)
        (ops.map (fun op => (true, op)))).1 = SideEffectState.fresh Props := by
  refine ⟨rfl, runWorld_first_only reduce mapper _ ops, ?_, ?_,
    runWorld_second_only reduce mapper _ ops⟩
  · rw [runWorld_first_only]
    rfl
  · rw [runWorld_first_only]

end ReactSideEffect
